import Mathlib

/-!
Verification of `easy_gar/reporting/__init__.py` (package easy_gar, Google
Analytics Reporting API v4 client).

The file embeds the reporting module shallowly:

* Python scalar values that flow through truthiness tests (`and` / `or`,
  `if x:`) are modelled by `PyVal`.
* `ReportingAPI._request_with_exponential_backoff` is modelled by
  `request_with_exponential_backoff`, a fuel-bounded loop over an oracle
  giving the outcome of each attempt (the remote call) and a jitter oracle
  (the value of `random.random()` on each iteration).
* The request body built by `ReportingAPI._get` is modelled by
  `buildRequestBody`; `ReportingAPI.get_report` is modelled by `get_report`,
  parameterised by a `server` function giving the result of its `_get` call.
* Python exceptions are modelled by `PyExc` and `Except PyExc`.

Parts of the repository that are imported by the module but are not under
src (the `easy_gar.constants`, `easy_gar.reporting.metrics`,
`easy_gar.reporting.dimensions` and `easy_gar.report` modules) are modelled
from the spec; each such definition carries a doc comment starting with
`Modelled from the spec:`.
-/

/-- A Python scalar value, as needed by the reporting module: `None`,
an int, a str, or a float (floats only ever appear as the result of
`random.random()`; a rational stands in for the float payload, since no
claim inspects float rounding). -/
inductive PyVal
  | none
  | int (n : Int)
  | str (s : String)
  | float (q : ℚ)
deriving DecidableEq

/-- Python truthiness: `None` is falsy, numbers are falsy iff zero,
strings are falsy iff empty. -/
def PyVal.truthy : PyVal → Bool
  | .none => false
  | .int n => n != 0
  | .str s => s != ""
  | .float q => q != 0

/-- Python `str(x)` for the values above. `str` of an int prints the
decimal digits, with a leading minus sign when negative, exactly as
`toString : Int → String` does. The float case is a stand-in (no claim
evaluates `str` of a float). -/
def pyStr : PyVal → String
  | .none => "None"
  | .int n => toString n
  | .str s => s
  | .float q => toString q

/-- Python `a and b`: returns `a` when `a` is falsy, else `b`. -/
def pyAnd (a b : PyVal) : PyVal :=
  if a.truthy then b else a

/-- Python `a or b`: returns `a` when `a` is truthy, else `b`. -/
def pyOr (a b : PyVal) : PyVal :=
  if a.truthy then a else b

/-- Python `x or d` for an optional string `x` and a string default `d`
(used for `sampling_level or self.sampling_level`,
`order_type or ...default`, `sort_order or ...default`):
`None` and the empty string fall through to the default. -/
def pyOrStr : Option String → String → String
  | some s, d => if s = "" then d else s
  | none, d => d

/-- A Python exception, as raised by the reporting module: an `HttpError`
carrying the reason of the HTTP response, a `TypeError`, or an
`AttributeError` carrying the missing attribute name. -/
inductive PyExc
  | httpError (reason : String)
  | typeError
  | attrError (attr : String)
deriving DecidableEq

/-- Python `a + b` on `PyVal`s: defined on number pairs and string pairs;
every other combination (in particular `None + float`) raises `TypeError`. -/
def pyAdd : PyVal → PyVal → Except PyExc PyVal
  | .int a, .int b => .ok (.int (a + b))
  | .float a, .float b => .ok (.float (a + b))
  | .int a, .float b => .ok (.float (a + b))
  | .float a, .int b => .ok (.float (a + b))
  | .str a, .str b => .ok (.str (a ++ b))
  | _, _ => .error .typeError

/-- `time.sleep(seconds)` blocks and returns Python `None`. The argument
of the call in the source is the int `2 ** n`, hence a `Nat` here. -/
def timeSleep (_seconds : Nat) : PyVal := PyVal.none

instance {ε α : Type} [DecidableEq ε] [DecidableEq α] : DecidableEq (Except ε α)
  | .error e, .error f =>
    if h : e = f then .isTrue (by subst h; rfl)
    else .isFalse (by intro he; cases he; exact h rfl)
  | .error _, .ok _ => .isFalse (by intro he; cases he)
  | .ok _, .error _ => .isFalse (by intro he; cases he)
  | .ok x, .ok y =>
    if h : x = y then .isTrue (by subst h; rfl)
    else .isFalse (by intro he; cases he; exact h rfl)

/-- The fixed set of transient error reasons of
`_request_with_exponential_backoff` (source lines 70 to 75). -/
def transientReasons : List String :=
  ["userRateLimitExceeded", "quotaExceeded", "internalServerError", "backendError"]

/-- Outcome of one attempted `batchGet(...).execute()` call: a response
value, or an `HttpError` with the given response reason. -/
inductive Outcome (α : Type)
  | success (a : α)
  | failure (reason : String)
deriving DecidableEq

/-- Observable trace of `_request_with_exponential_backoff`: the returned
value or raised exception, how many attempts (executions of the request)
were made, and the list of durations passed to `time.sleep`. -/
structure BackoffTrace (α : Type) where
  result : Except PyExc α
  attempts : Nat
  sleeps : List Nat
deriving DecidableEq

/-- The loop `for n in range(0, 5):` of `_request_with_exponential_backoff`
(source lines 59 to 80), with `fuel` iterations remaining, `n` the loop
index, `error` the local variable `error`, and `attempts` and `sleeps`
accumulated for the trace.

Each iteration tries `oracle n`. On success the response is returned. On an
`HttpError`, `error` is set to it; if its reason is transient the code then
executes the statement `time.sleep((2 ** n)) + random.random()`: the call
`time.sleep((2 ** n))` sleeps for `2 ^ n` seconds (without jitter, since the
closing parenthesis precedes the `+`) and returns `None`, after which
`None + random.random()` is evaluated by `pyAdd` — only if that addition
produced a value would the loop continue with the next `n`. A non-transient
reason breaks out of the loop, and after the loop `raise error` re-raises
the saved error (`raise None`, were the loop ever to exhaust with no saved
error, is itself a `TypeError`). -/
def backoffLoop {α : Type} (oracle : Nat → Outcome α) (jitter : Nat → ℚ) :
    Nat → Nat → Option String → Nat → List Nat → BackoffTrace α
  | 0, _, error, attempts, sleeps =>
    match error with
    | some r => ⟨.error (.httpError r), attempts, sleeps⟩
    | none => ⟨.error .typeError, attempts, sleeps⟩
  | fuel + 1, n, _error, attempts, sleeps =>
    match oracle n with
    | .success a => ⟨.ok a, attempts + 1, sleeps⟩
    | .failure r =>
      if r ∈ transientReasons then
        let sleeps := sleeps ++ [2 ^ n]
        match pyAdd (timeSleep (2 ^ n)) (PyVal.float (jitter n)) with
        | .error e => ⟨.error e, attempts + 1, sleeps⟩
        | .ok _ => backoffLoop oracle jitter fuel (n + 1) (some r) (attempts + 1) sleeps
      else
        ⟨.error (.httpError r), attempts + 1, sleeps⟩

/-- `ReportingAPI._request_with_exponential_backoff` (source lines 57 to 80):
run the loop with 5 iterations of fuel, loop index starting at 0, and the
local `error` initialised to `None`. -/
def request_with_exponential_backoff {α : Type} (oracle : Nat → Outcome α)
    (jitter : Nat → ℚ) : BackoffTrace α :=
  backoffLoop oracle jitter 5 0 none 0 []

/-- Modelled from the spec: `easy_gar.constants.sampling_level.default`, the
configured default sampling level used as the class attribute
`ReportingAPI.sampling_level` (the `easy_gar.constants` module is not under
src). Its concrete value is a configuration constant; claims only refer to
it by name. -/
def samplingLevelDefault : String := "DEFAULT"

/-- Modelled from the spec: `easy_gar.constants.order_type.default`, the
configured default order type of an `OrderBy` (module not under src). -/
def orderTypeDefault : String := "VALUE"

/-- Modelled from the spec: `easy_gar.constants.sort_order.default`, the
configured default sort order of an `OrderBy` (module not under src). -/
def sortOrderDefault : String := "ASCENDING"

/-- The `OrderBy` class of the module (source lines 181 to 195): holds a
field name, an order type and a sort order. -/
structure OrderBy where
  field_name : Option String
  order_type : String
  sort_order : String
deriving DecidableEq

/-- `OrderBy.__init__` (source lines 184 to 188): stores the field name as
given; `order_type` and `sort_order` fall back to the configured defaults
through Python `or`. -/
def OrderBy.init (field_name order_type sort_order : Option String) : OrderBy :=
  { field_name := field_name
  , order_type := pyOrStr order_type orderTypeDefault
  , sort_order := pyOrStr sort_order sortOrderDefault }

/-- The wire shape produced by `OrderBy.__call__`: a dict with keys
fieldName, orderType and sortOrder. -/
structure OrderByWire where
  fieldName : String
  orderType : String
  sortOrder : String
deriving DecidableEq

/-- `OrderBy.__call__` (source lines 190 to 195): serialize the stored
values; the field name goes through Python `str` (so `None` becomes the
string None). -/
def OrderBy.call (o : OrderBy) : OrderByWire :=
  { fieldName := pyStr (match o.field_name with
      | some s => PyVal.str s
      | none => PyVal.none)
  , orderType := o.order_type
  , sortOrder := o.sort_order }

/-- Modelled from the spec: a metric value object of
`easy_gar.reporting.metrics` (module not under src) — a simple declarative
wrapper holding a wire expression and an alias; calling it serializes to
the request shape, and the alias attribute (field `aliasName` here, since
alias is a reserved word in Lean) names the output column. -/
structure Metric where
  expression : String
  aliasName : String
deriving DecidableEq

/-- The wire dict produced by calling a metric object. -/
structure MetricWire where
  expression : String
  aliasName : String
deriving DecidableEq

/-- Modelled from the spec: calling a metric object serializes it. -/
def Metric.call (m : Metric) : MetricWire :=
  { expression := m.expression, aliasName := m.aliasName }

/-- Modelled from the spec: a dimension value object of
`easy_gar.reporting.dimensions` (module not under src) — a declarative
wrapper holding a wire name and an alias. -/
structure Dimension where
  name : String
  aliasName : String
deriving DecidableEq

/-- The wire dict produced by calling a dimension object. -/
structure DimensionWire where
  name : String
deriving DecidableEq

/-- Modelled from the spec: calling a dimension object serializes it. -/
def Dimension.call (d : Dimension) : DimensionWire :=
  { name := d.name }

/-- Modelled from the spec: `easy_gar.reporting.dimensions.date`, the date
dimension used as the default when `get_report` is given no dimensions
(module not under src; the spec says omitting dimensions defaults to a
single date dimension, and the example builds the index from date values). -/
def dateDimension : Dimension :=
  { name := "ga:date", aliasName := "date" }

/-- The dateRanges entry of a request body. -/
structure DateRange where
  startDate : Option String
  endDate : Option String
deriving DecidableEq

/-- The report request body built by `ReportingAPI._get` (source lines
94 to 105). Optional fields `pageToken` and `orderBys` are `none` when the
corresponding key is absent from the dict. `metrics` and `dimensions` hold
whatever was passed (possibly Python `None`). -/
structure RequestBody where
  samplingLevel : String
  viewId : String
  dateRanges : List DateRange
  metrics : Option (List MetricWire)
  dimensions : Option (List DimensionWire)
  pageSize : PyVal
  pageToken : Option String
  orderBys : Option (List OrderByWire)
deriving DecidableEq

/-- Line 100 of the source, the value stored under pageSize:
`page_size and str(page_size) or "10000"`. -/
def pageSizeField (page_size : PyVal) : PyVal :=
  pyOr (pyAnd page_size (PyVal.str (pyStr page_size))) (PyVal.str "10000")

/-- Truthiness of an optional string (for `if page_token:`): present and
nonempty. -/
def optStrTruthy : Option String → Bool
  | some s => s != ""
  | none => false

/-- The body-building part of `ReportingAPI._get` (source lines 94 to 105):
`samplingLevel` falls back to the class attribute through Python `or`;
`dateRanges` is the one-element list of the given start and end dates;
`pageSize` is computed by `pageSizeField`; `pageToken` is set (to
`str(page_token)`, the identity on the strings that occur) only when
`page_token` is truthy; `orderBys` is set to the serialized list only when
`order_by` is truthy (non-`None` and nonempty). -/
def buildRequestBody (self_sampling : String) (view_id : String)
    (sampling_level : Option String) (start_date end_date : Option String)
    (metrics : Option (List MetricWire)) (dimensions : Option (List DimensionWire))
    (order_by : Option (List OrderBy)) (page_token : Option String)
    (page_size : PyVal) : RequestBody :=
  { samplingLevel := pyOrStr sampling_level self_sampling
  , viewId := view_id
  , dateRanges := [{ startDate := start_date, endDate := end_date }]
  , metrics := metrics
  , dimensions := dimensions
  , pageSize := pageSizeField page_size
  , pageToken := if optStrTruthy page_token then page_token else none
  , orderBys := match order_by with
      | some l => if l.isEmpty then none else some (l.map OrderBy.call)
      | none => none }

/-- One row of a report page, per the external response shape (spec data
model: rows are pairs of a dimension-value tuple and a metric-value tuple):
`row["dimensions"]` is the list of dimension values and
`row["metrics"][0]["values"]` — the values of the single date range every
request carries — is the list of metric values. -/
structure ResponseRow where
  dimensions : List String
  metricValues : List String
deriving DecidableEq

/-- One report object, `response["reports"][0]` as seen by `get_report`:
the rows under `data.rows` and the optional top-level nextPageToken key. -/
structure ReportPage where
  rows : List ResponseRow
  nextPageToken : Option String
deriving DecidableEq

/-- Modelled from the spec: `easy_gar.report.Report` (module not under src)
together with `pandas.MultiIndex.from_tuples` — a tabular object whose
columns are named by metric aliases (`data` pairs each alias with its
column of values), whose row index is the list of dimension-value tuples
with level names from the dimension aliases, and which carries the given
name. -/
structure Report where
  data : List (String × List String)
  index : List (List String)
  indexNames : List String
  name : Option String
deriving DecidableEq

/-- Python `zip(*rows)`: the transpose truncated to the shortest row; on
no rows at all, `zip()` is empty. -/
def pyZipStar (rows : List (List String)) : List (List String) :=
  match rows with
  | [] => []
  | r0 :: rest =>
    let k := rest.foldl (fun m r => min m r.length) r0.length
    (List.range k).map (fun i => rows.map (fun r => r.getD i ""))

/-- The dimensions default of `get_report` (source lines 122 to 123):
`if not dimensions: dimensions = [easy_gar.reporting.dimensions.date]`.
A `List` argument models both an omitted argument (Python default `None`)
and an explicitly empty list: both are falsy, both are replaced here. -/
def getReportDims (dimensions : List Dimension) : List Dimension :=
  if dimensions.isEmpty then [dateDimension] else dimensions

/-- The request body that `get_report` has `_get` build (source lines
126 to 137): metrics and the (possibly defaulted) dimensions are serialized
by calling each object; `order_by` is forwarded; `page_token` and
`page_size` keep the `_get` defaults `None`. -/
def getReportBody (view_id : String) (sampling_level : Option String)
    (start_date end_date : String) (metrics : List Metric)
    (dimensions : List Dimension) (order_by : Option (List OrderBy)) :
    RequestBody :=
  buildRequestBody samplingLevelDefault view_id sampling_level
    (some start_date) (some end_date)
    (some (metrics.map Metric.call))
    (some ((getReportDims dimensions).map Dimension.call))
    order_by none PyVal.none

/-- `ReportingAPI.get_report` (source lines 111 to 178), parameterised by
`server`, the function from a request body to the outcome of
`self._get(...)` for that body: an exception from the backoff layer, or the
report object `response["reports"][0]`, where `Except.ok none` stands for
a falsy report dict.

After the first `_get`, a falsy response skips the whole `if response:`
block, returning Python `None`. Otherwise `rows` and `indices` are drawn
from `response["data"]["rows"]`, and then
`while "nextPageToken" in response.keys():` — the loop body evaluates
`self._batch_get(start_date, end_date, _metrics, _dimensions, page_token)`,
but `ReportingAPI` defines no attribute `_batch_get` (its class body
defines only `sampling_level`, `__init__`,
`_request_with_exponential_backoff`, `_get` and `get_report`, and the
attribute is assigned nowhere in the repository), so the attribute lookup
raises `AttributeError` before any further request is made. When no
nextPageToken key is present the table is assembled: `data` zips the metric
aliases with `zip(*rows)`, and the index is built from the dimension
tuples with the dimension aliases as level names.

Python defaults not exercised by any claim (e.g. `metrics=None`, which
would fail to iterate) are outside the model: `metrics` and `dimensions`
are lists here. -/
def get_report (server : RequestBody → Except PyExc (Option ReportPage))
    (view_id : String) (sampling_level : Option String)
    (start_date end_date : String) (metrics : List Metric)
    (dimensions : List Dimension) (order_by : Option (List OrderBy))
    (name : Option String) : Except PyExc (Option Report) :=
  let dims := getReportDims dimensions
  match server (getReportBody view_id sampling_level start_date end_date
      metrics dimensions order_by) with
  | .error e => .error e
  | .ok none => .ok none
  | .ok (some page) =>
    if (page.nextPageToken).isSome then
      .error (PyExc.attrError "_batch_get")
    else
      let rows := page.rows.map ResponseRow.metricValues
      let indices := page.rows.map ResponseRow.dimensions
      let fieldnames := metrics.map Metric.aliasName
      Except.ok (some
        { data := fieldnames.zip (pyZipStar rows)
        , index := indices
        , indexNames := dims.map Dimension.aliasName
        , name := name })

theorem toDigitsCore_length_le (b : Nat) :
    ∀ (f n : Nat) (l : List Char), l.length ≤ (Nat.toDigitsCore b f n l).length := by
  intro f
  induction f with
  | zero => intro n l; simp [Nat.toDigitsCore]
  | succ f ih =>
    intro n l
    simp only [Nat.toDigitsCore]
    split
    · simp
    · refine Nat.le_trans ?_ (ih (n / b) ((n % b).digitChar :: l))
      simp

theorem nat_repr_ne_empty (n : Nat) : Nat.repr n ≠ "" := by
  intro h
  have hd : Nat.toDigits 10 n = [] := congrArg String.data h
  have h1 : 1 ≤ (Nat.toDigits 10 n).length := by
    show 1 ≤ (Nat.toDigitsCore 10 (n + 1) n []).length
    simp only [Nat.toDigitsCore]
    split
    · simp
    · exact Nat.le_trans (by simp) (toDigitsCore_length_le 10 _ _ _)
  rw [hd] at h1
  simp at h1

theorem int_toString_ne_empty (n : Int) : toString n ≠ "" := by
  cases n with
  | ofNat m => exact nat_repr_ne_empty m
  | negSucc m =>
    intro h
    have h2 := congrArg String.data h
    rw [show toString (Int.negSucc m) = "-" ++ Nat.repr (m + 1) from rfl] at h2
    rw [String.data_append] at h2
    simp at h2

/-- Claim C1 (code bug): pagination is claimed to continue fetching pages
while a next-page token is present, with the final table concatenating all
pages (5 rows, 1 column "sessions", index from 5 date values in the spec
example). In the code, upon seeing a nextPageToken key the loop body calls
`self._batch_get(...)`, an attribute `ReportingAPI` does not have — the
module defines only `_get` — so `get_report` raises `AttributeError` on the
very first paginated response: here, the first page of the spec example
(metrics=[sessions], dimensions=[date], 3 rows and a next-page token), on
which no table is ever produced. -/
theorem c1_pagination_raises_attribute_error :
    get_report
      (fun _ => Except.ok (some
        { rows :=
            [ { dimensions := ["2019-01-01"], metricValues := ["5"] }
            , { dimensions := ["2019-01-02"], metricValues := ["7"] }
            , { dimensions := ["2019-01-03"], metricValues := ["9"] } ]
        , nextPageToken := some "3" }))
      "ga:123456" none "2019-01-01" "2019-01-07"
      [{ expression := "ga:sessions", aliasName := "sessions" }]
      [dateDimension] none none =
      Except.error (PyExc.attrError "_batch_get") := by decide

/-- Claim C2 (code bug): a request failing with a transient reason is
claimed to be retried up to 5 attempts with jittered exponential backoff,
re-raising the last transient error. In the code the backoff statement is
`time.sleep((2 ** n)) + random.random()`: the misplaced parenthesis makes
it sleep exactly `2 ^ n` seconds (no jitter) and then add `None` (the
return value of `time.sleep`) to a float, which raises `TypeError`. So for
every first attempt failing with a transient reason, whatever the remaining
attempts and the jitter values would be, exactly one attempt is made, one
unjittered sleep of 1 second happens, and a `TypeError` — not the
`HttpError` — propagates. -/
theorem c2_transient_failure_raises_type_error {α : Type}
    (oracle : Nat → Outcome α) (jitter : Nat → ℚ) (r : String)
    (hr : r ∈ transientReasons) (h0 : oracle 0 = Outcome.failure r) :
    request_with_exponential_backoff oracle jitter =
      { result := Except.error PyExc.typeError, attempts := 1, sleeps := [1] } := by
  simp [request_with_exponential_backoff, backoffLoop, h0, hr, pyAdd, timeSleep]

theorem c2_transient_failure_raises_type_error_witness :
    "userRateLimitExceeded" ∈ transientReasons ∧
    (request_with_exponential_backoff
        (fun _ => Outcome.failure "userRateLimitExceeded")
        (fun _ => (1 : ℚ) / 2) : BackoffTrace Nat) =
      { result := Except.error PyExc.typeError, attempts := 1, sleeps := [1] } :=
  ⟨by decide,
   c2_transient_failure_raises_type_error
     (fun _ => Outcome.failure "userRateLimitExceeded")
     (fun _ => (1 : ℚ) / 2) "userRateLimitExceeded" (by decide) rfl⟩

/-- Claim C3: a request failing with a reason outside the transient set
propagates on its first occurrence: exactly one attempt is made, no backoff
sleep happens, and that `HttpError` is raised. -/
theorem c3_non_transient_failure_propagates_immediately {α : Type}
    (oracle : Nat → Outcome α) (jitter : Nat → ℚ) (r : String)
    (hr : r ∉ transientReasons) (h0 : oracle 0 = Outcome.failure r) :
    request_with_exponential_backoff oracle jitter =
      { result := Except.error (PyExc.httpError r), attempts := 1, sleeps := [] } := by
  simp [request_with_exponential_backoff, backoffLoop, h0, hr]

theorem c3_non_transient_failure_propagates_immediately_witness :
    "notFound" ∉ transientReasons ∧
    (request_with_exponential_backoff (fun _ => Outcome.failure "notFound")
        (fun _ => (1 : ℚ) / 2) : BackoffTrace Nat) =
      { result := Except.error (PyExc.httpError "notFound"), attempts := 1
      , sleeps := [] } :=
  ⟨by decide,
   c3_non_transient_failure_propagates_immediately
     (fun _ => Outcome.failure "notFound") (fun _ => (1 : ℚ) / 2) "notFound"
     (by decide) rfl⟩

/-- Claim C4: for every call to `get_report` whose first response is
empty/falsy, `get_report` returns nothing (Python `None`, here
`Except.ok none`) rather than raising an error. -/
theorem c4_falsy_first_response_returns_none
    (server : RequestBody → Except PyExc (Option ReportPage))
    (view_id : String) (sampling_level : Option String)
    (start_date end_date : String) (metrics : List Metric)
    (dimensions : List Dimension) (order_by : Option (List OrderBy))
    (name : Option String)
    (h : server (getReportBody view_id sampling_level start_date end_date
        metrics dimensions order_by) = Except.ok none) :
    get_report server view_id sampling_level start_date end_date metrics
      dimensions order_by name = Except.ok none := by
  simp [get_report, h]

theorem c4_falsy_first_response_returns_none_witness :
    get_report (fun _ => Except.ok none) "ga:123456" none "7daysAgo" "today"
      [{ expression := "ga:sessions", aliasName := "sessions" }] [] none none =
      Except.ok none :=
  c4_falsy_first_response_returns_none (fun _ => Except.ok none) "ga:123456"
    none "7daysAgo" "today"
    [{ expression := "ga:sessions", aliasName := "sessions" }] [] none none rfl

/-- Claim C5: for every call to `_get` with `page_size` unspecified (Python
`None`), the pageSize field of the request body is 10000 (stored, as the
code always does, as the string "10000"). -/
theorem c5_default_page_size (self_sampling view_id : String)
    (sampling_level start_date end_date : Option String)
    (metrics : Option (List MetricWire))
    (dimensions : Option (List DimensionWire))
    (order_by : Option (List OrderBy)) (page_token : Option String) :
    (buildRequestBody self_sampling view_id sampling_level start_date
        end_date metrics dimensions order_by page_token PyVal.none).pageSize =
      PyVal.str "10000" := rfl

/-- Claim C7: every request body built by `_get` carries exactly one date
range: the dateRanges field is the one-element list of the given start and
end dates, for all argument combinations. -/
theorem c7_single_date_range (self_sampling view_id : String)
    (sampling_level start_date end_date : Option String)
    (metrics : Option (List MetricWire))
    (dimensions : Option (List DimensionWire))
    (order_by : Option (List OrderBy)) (page_token : Option String)
    (page_size : PyVal) :
    (buildRequestBody self_sampling view_id sampling_level start_date
        end_date metrics dimensions order_by page_token page_size).dateRanges =
      [{ startDate := start_date, endDate := end_date }] := rfl

/-- Claim C6: for every call to `get_report` with dimensions omitted or
empty, the request carries exactly one dimension — the date dimension —
and the produced table has its row index built from the date values of the
response, with the date alias as the single index level name. -/
theorem c6_default_dimensions_is_date
    (server : RequestBody → Except PyExc (Option ReportPage))
    (view_id : String) (sampling_level : Option String)
    (start_date end_date : String) (metrics : List Metric)
    (order_by : Option (List OrderBy)) (name : Option String)
    (page : ReportPage)
    (hp : server (getReportBody view_id sampling_level start_date end_date
        metrics [] order_by) = Except.ok (some page))
    (ht : page.nextPageToken = none) :
    (getReportBody view_id sampling_level start_date end_date metrics []
        order_by).dimensions = some [Dimension.call dateDimension] ∧
    get_report server view_id sampling_level start_date end_date metrics []
        order_by name =
      Except.ok (some
        { data := (metrics.map Metric.aliasName).zip
            (pyZipStar (page.rows.map ResponseRow.metricValues))
        , index := page.rows.map ResponseRow.dimensions
        , indexNames := [dateDimension.aliasName]
        , name := name }) := by
  constructor
  · rfl
  · simp [get_report, hp, ht, getReportDims, dateDimension]

theorem c6_default_dimensions_is_date_witness :
    (getReportBody "ga:123456" none "7daysAgo" "today"
        [{ expression := "ga:sessions", aliasName := "sessions" }] []
        none).dimensions = some [Dimension.call dateDimension] ∧
    get_report
      (fun _ => Except.ok (some
        { rows :=
            [ { dimensions := ["2019-01-01"], metricValues := ["5"] }
            , { dimensions := ["2019-01-02"], metricValues := ["7"] } ]
        , nextPageToken := none }))
      "ga:123456" none "7daysAgo" "today"
      [{ expression := "ga:sessions", aliasName := "sessions" }] [] none none =
      Except.ok (some
        { data :=
            ([{ expression := "ga:sessions", aliasName := "sessions" }].map
                Metric.aliasName).zip
              (pyZipStar
                (({ rows :=
                      [ { dimensions := ["2019-01-01"], metricValues := ["5"] }
                      , { dimensions := ["2019-01-02"], metricValues := ["7"] } ]
                  , nextPageToken := none } : ReportPage).rows.map
                  ResponseRow.metricValues))
        , index :=
            ({ rows :=
                 [ { dimensions := ["2019-01-01"], metricValues := ["5"] }
                 , { dimensions := ["2019-01-02"], metricValues := ["7"] } ]
             , nextPageToken := none } : ReportPage).rows.map
              ResponseRow.dimensions
        , indexNames := [dateDimension.aliasName]
        , name := none }) :=
  c6_default_dimensions_is_date
    (fun _ => Except.ok (some
      { rows :=
          [ { dimensions := ["2019-01-01"], metricValues := ["5"] }
          , { dimensions := ["2019-01-02"], metricValues := ["7"] } ]
      , nextPageToken := none }))
    "ga:123456" none "7daysAgo" "today"
    [{ expression := "ga:sessions", aliasName := "sessions" }] none none
    { rows :=
        [ { dimensions := ["2019-01-01"], metricValues := ["5"] }
        , { dimensions := ["2019-01-02"], metricValues := ["7"] } ]
    , nextPageToken := none } rfl rfl

/-- Claim C8: for every report produced by `get_report`, the composite row
index derived from the dimension-value tuples has length equal to the
number of data rows: index entries and metric rows are extracted one-to-one
from the same response rows, so the index length equals both the count of
response rows and the count of extracted metric-value tuples. -/
theorem c8_index_length_equals_row_count
    (server : RequestBody → Except PyExc (Option ReportPage))
    (view_id : String) (sampling_level : Option String)
    (start_date end_date : String) (metrics : List Metric)
    (dimensions : List Dimension) (order_by : Option (List OrderBy))
    (name : Option String) (page : ReportPage) (r : Report)
    (hp : server (getReportBody view_id sampling_level start_date end_date
        metrics dimensions order_by) = Except.ok (some page))
    (hr : get_report server view_id sampling_level start_date end_date
        metrics dimensions order_by name = Except.ok (some r)) :
    r.index.length = page.rows.length ∧
    r.index.length = (page.rows.map ResponseRow.metricValues).length := by
  simp only [get_report, hp] at hr
  cases htok : page.nextPageToken with
  | some t => rw [htok] at hr; simp at hr
  | none =>
    rw [htok] at hr
    simp only [Option.isSome_none, Bool.false_eq_true, if_false,
      Except.ok.injEq, Option.some.injEq] at hr
    subst hr
    simp

theorem c8_index_length_equals_row_count_witness :
    (({ data := [("sessions", ["5", "7"])]
      , index := [["2019-01-01"], ["2019-01-02"]]
      , indexNames := ["date"]
      , name := none } : Report)).index.length =
      ({ rows :=
           [ { dimensions := ["2019-01-01"], metricValues := ["5"] }
           , { dimensions := ["2019-01-02"], metricValues := ["7"] } ]
       , nextPageToken := none } : ReportPage).rows.length ∧
    (({ data := [("sessions", ["5", "7"])]
      , index := [["2019-01-01"], ["2019-01-02"]]
      , indexNames := ["date"]
      , name := none } : Report)).index.length =
      (({ rows :=
            [ { dimensions := ["2019-01-01"], metricValues := ["5"] }
            , { dimensions := ["2019-01-02"], metricValues := ["7"] } ]
        , nextPageToken := none } : ReportPage).rows.map
          ResponseRow.metricValues).length :=
  c8_index_length_equals_row_count
    (fun _ => Except.ok (some
      { rows :=
          [ { dimensions := ["2019-01-01"], metricValues := ["5"] }
          , { dimensions := ["2019-01-02"], metricValues := ["7"] } ]
      , nextPageToken := none }))
    "ga:123456" none "7daysAgo" "today"
    [{ expression := "ga:sessions", aliasName := "sessions" }] [] none none
    { rows :=
        [ { dimensions := ["2019-01-01"], metricValues := ["5"] }
        , { dimensions := ["2019-01-02"], metricValues := ["7"] } ]
    , nextPageToken := none }
    { data := [("sessions", ["5", "7"])]
    , index := [["2019-01-01"], ["2019-01-02"]]
    , indexNames := ["date"]
    , name := none } rfl (by decide)

/-- Claim C9: an `OrderBy` constructed with `order_type` (resp.
`sort_order`) omitted or `None` holds the configured default order type
(resp. sort order), and calling it serializes to the wire shape with keys
fieldName, orderType and sortOrder carrying the stored values (the field
name through Python `str`). -/
theorem c9_orderby_defaults_and_serialization (fn : Option String)
    (ot_arg so_arg : Option String) (o : OrderBy) :
    (OrderBy.init fn none so_arg).order_type = orderTypeDefault ∧
    (OrderBy.init fn ot_arg none).sort_order = sortOrderDefault ∧
    (OrderBy.call o).orderType = o.order_type ∧
    (OrderBy.call o).sortOrder = o.sort_order ∧
    (OrderBy.call o).fieldName = pyStr (match o.field_name with
      | some s => PyVal.str s
      | none => PyVal.none) :=
  ⟨rfl, rfl, rfl, rfl, rfl⟩

/-- Claim C10: the pageSize value built by line 100 of `_get` is always a
string: every falsy `page_size` (`None`, the int 0, the empty string) is
replaced by the default string "10000", every truthy `page_size` is
converted with Python `str`, and in particular an explicit page size of 0
is treated exactly like an unspecified one. -/
theorem c10_page_size_is_always_string :
    (∀ (self_sampling view_id : String)
       (sampling_level start_date end_date : Option String)
       (metrics : Option (List MetricWire))
       (dimensions : Option (List DimensionWire))
       (order_by : Option (List OrderBy)) (page_token : Option String)
       (page_size : PyVal),
       ∃ s, (buildRequestBody self_sampling view_id sampling_level start_date
          end_date metrics dimensions order_by page_token
          page_size).pageSize = PyVal.str s) ∧
    pageSizeField PyVal.none = PyVal.str "10000" ∧
    pageSizeField (PyVal.int 0) = PyVal.str "10000" ∧
    pageSizeField (PyVal.str "") = PyVal.str "10000" ∧
    (∀ n : Int, n ≠ 0 → pageSizeField (PyVal.int n) = PyVal.str (toString n)) ∧
    (∀ s : String, s ≠ "" → pageSizeField (PyVal.str s) = PyVal.str s) ∧
    pageSizeField (PyVal.int 0) = pageSizeField PyVal.none := by
  refine ⟨?_, rfl, rfl, rfl, ?_, ?_, rfl⟩
  · intro _ _ _ _ _ _ _ _ _ ps
    show ∃ s, pageSizeField ps = PyVal.str s
    unfold pageSizeField pyAnd pyOr
    by_cases h : ps.truthy
    · simp only [h, if_true]
      by_cases h2 : pyStr ps = ""
      · exact ⟨"10000", by simp [PyVal.truthy, h2]⟩
      · exact ⟨pyStr ps, by simp [PyVal.truthy, h2]⟩
    · exact ⟨"10000", by simp [h]⟩
  · intro n hn
    simp [pageSizeField, pyAnd, pyOr, pyStr, PyVal.truthy, hn,
      int_toString_ne_empty n]
  · intro s hs
    simp [pageSizeField, pyAnd, pyOr, pyStr, PyVal.truthy, hs]

theorem c10_page_size_is_always_string_witness :
    pageSizeField (PyVal.int 25) = PyVal.str "25" ∧
    pageSizeField (PyVal.str "500") = PyVal.str "500" :=
  ⟨c10_page_size_is_always_string.2.2.2.2.1 25 (by decide),
   c10_page_size_is_always_string.2.2.2.2.2.1 "500" (by decide)⟩
